import Mathlib

/-!
Shallow embedding of the Weather-App request-orchestration logic
(source: src/App.tsx) and proofs of the specification claims about it.

Numbers that the app only passes through (temperatures, coordinates,
UV indices, wind speeds) are modelled as `Int`; no claim involves
floating-point arithmetic on them.  Asynchronous fetches are modelled
by splitting each fetch into its synchronous start phase (everything
up to the first `await`) and a resolution phase applied when the
network outcome arrives; interleavings of two in-flight fetches are
traces of start/resolve events.
-/

namespace WeatherApp

/-- The two unit systems (`'metric' | 'imperial'` in the source). -/
inductive UnitSystem
  | metric
  | imperial
  deriving DecidableEq, Repr

/-- `coord` field of Provider A's response (App.tsx lines 9-12). -/
structure WeatherCoord where
  lat : Int
  lon : Int
  deriving DecidableEq, Repr

/-- `sys` field of Provider A's response (App.tsx lines 13-15). -/
structure WeatherSys where
  country : String
  deriving DecidableEq, Repr

/-- One element of the `weather` array of Provider A's response (App.tsx lines 16-19). -/
structure WeatherCondition where
  main : String
  description : String
  deriving DecidableEq, Repr

/-- `main` field of Provider A's response (App.tsx lines 20-24). -/
structure WeatherMainBlock where
  temp : Int
  feels_like : Int
  humidity : Int
  deriving DecidableEq, Repr

/-- `wind` field of Provider A's response (App.tsx lines 25-27). -/
structure WeatherWind where
  speed : Int
  deriving DecidableEq, Repr

/-- The `WeatherData` record of App.tsx lines 4-28. -/
structure WeatherData where
  name : String
  dt : Int
  timezone : Int
  visibility : Int
  coord : WeatherCoord
  sys : WeatherSys
  weather : List WeatherCondition
  main : WeatherMainBlock
  wind : WeatherWind
  deriving DecidableEq, Repr

/-- The `WeatherRequest` record of App.tsx lines 30-34: all fields optional. -/
structure WeatherRequest where
  city : Option String := none
  lat : Option Int := none
  lon : Option Int := none
  deriving DecidableEq, Repr

/-- The `WeeklyForecastDay` record of App.tsx lines 36-44: `uvMax`,
`sunrise`, `sunset` are optional, the rest required. -/
structure WeeklyForecastDay where
  date : String
  code : Int
  tempMax : Int
  tempMin : Int
  uvMax : Option Int := none
  sunrise : Option String := none
  sunset : Option String := none
  deriving DecidableEq, Repr

/-- The imperial-locale set of App.tsx line 64. -/
def imperialLocales : List String := ["en-US", "en-LR", "en-MM"]

/-- `getDefaultUnits` (App.tsx lines 66-67), with `navigator.language`
passed explicitly. -/
def getDefaultUnits (language : String) : UnitSystem :=
  if imperialLocales.contains language then UnitSystem.imperial else UnitSystem.metric

/-- The `useState` initializer of the `units` state (App.tsx lines 142-144):
`none` models an environment where `typeof navigator === 'undefined'`. -/
def initUnits (navigatorLanguage : Option String) : UnitSystem :=
  match navigatorLanguage with
  | none => UnitSystem.metric
  | some language => getDefaultUnits language

/-- `getWeeklySummary` (App.tsx lines 99-110): the weather-code to
condition-summary mapping, an if-chain evaluated top to bottom. -/
def getWeeklySummary (code : Int) : String × String :=
  if code = 0 then ("Clear", "☀️")
  else if code ≥ 1 ∧ code ≤ 3 then ("Clouds", "⛅")
  else if code = 45 ∨ code = 48 then ("Fog", "🌫️")
  else if code ≥ 51 ∧ code ≤ 55 then ("Drizzle", "🌦️")
  else if code ≥ 61 ∧ code ≤ 67 then ("Rain", "🌧️")
  else if code ≥ 71 ∧ code ≤ 77 then ("Snow", "❄️")
  else if code ≥ 80 ∧ code ≤ 82 then ("Showers", "🌦️")
  else if code = 85 ∨ code = 86 then ("Snow", "🌨️")
  else if code ≥ 95 then ("Storm", "⛈️")
  else ("Clear", "✨")

/-- Modelled from the spec's words only (section 4.3 mapping table,
first match wins), to be compared with the source's `getWeeklySummary`:
0 Clear; 1-3 Clouds; 45,48 Fog; 51-55 Drizzle; 61-67 Rain; 71-77 Snow;
80-82 Showers; 85,86 Snow; at least 95 Storm; anything else Clear. -/
def specCategoryTable (code : Int) : String :=
  if code = 0 then "Clear"
  else if 1 ≤ code ∧ code ≤ 3 then "Clouds"
  else if code = 45 ∨ code = 48 then "Fog"
  else if 51 ≤ code ∧ code ≤ 55 then "Drizzle"
  else if 61 ≤ code ∧ code ≤ 67 then "Rain"
  else if 71 ≤ code ∧ code ≤ 77 then "Snow"
  else if 80 ≤ code ∧ code ≤ 82 then "Showers"
  else if code = 85 ∨ code = 86 then "Snow"
  else if 95 ≤ code then "Storm"
  else "Clear"

/-- The component state of `App` (App.tsx lines 140-151) that the
orchestration logic reads and writes: the credential, the search input,
the unit system, the two FetchState instances (current conditions:
`data`/`loading`/`error`; forecast: `weekly`/`weeklyLoading`/`weeklyError`)
and the last-request memory (`lastRequest` ref). -/
structure AppState where
  apiKey : Option String
  query : String
  units : UnitSystem
  data : Option WeatherData
  loading : Bool
  error : String
  weekly : Option (List WeeklyForecastDay)
  weeklyLoading : Bool
  weeklyError : String
  lastRequest : Option WeatherRequest
  deriving DecidableEq, Repr

/-- The configuration-error message of App.tsx line 161. -/
def configErrorMessage : String :=
  "Add VITE_OPENWEATHER_API_KEY to a .env file to fetch data."

/-- The query parameters of the Provider A request built in
App.tsx lines 165-177: `appid` and `units` always, `q` when the request
has a city, `lat` and `lon` when the request has both coordinates. -/
structure WeatherParams where
  appid : String
  units : UnitSystem
  q : Option String
  lat : Option Int
  lon : Option Int
  deriving DecidableEq, Repr

/-- Builds the Provider A query parameters (App.tsx lines 165-177).
`lat`/`lon` are set only when both are defined, mirroring the
`request.lat !== undefined && request.lon !== undefined` guard. -/
def buildWeatherParams (apiKey : String) (units : UnitSystem)
    (request : WeatherRequest) : WeatherParams :=
  { appid := apiKey
    units := units
    q := request.city
    lat := match request.lat, request.lon with
      | some la, some _ => some la
      | _, _ => none
    lon := match request.lat, request.lon with
      | some _, some lo => some lo
      | _, _ => none }

/-- Synchronous start phase of `fetchWeather` (App.tsx lines 158-181):
everything before the `await fetch`.  Returns the updated state and
`some params` when a network call is issued, `none` when the missing
credential aborts the fetch before any request is built. -/
def fetchWeatherStart (s : AppState) (request : WeatherRequest) :
    AppState × Option WeatherParams :=
  match s.apiKey with
  | none => ({ s with error := configErrorMessage }, none)
  | some key =>
      ({ s with loading := true, error := "", lastRequest := some request },
       some (buildWeatherParams key s.units request))

/-- Outcome of the Provider A network call: a 2xx reply with a parsed
body, a non-2xx reply with an optional `message` field, or a
transport-level failure (the thrown value's message, `none` when the
thrown value is not an `Error`). -/
inductive WeatherOutcome
  | ok (body : WeatherData)
  | httpError (message : Option String)
  | transportError (message : Option String)
  deriving DecidableEq, Repr

/-- JavaScript `a || b` on an optional string: the fallback is used when
the string is absent or empty (empty strings are falsy). -/
def jsOrElse (m : Option String) (fallback : String) : String :=
  match m with
  | none => fallback
  | some msg => if msg.isEmpty then fallback else msg

/-- Resolution phase of `fetchWeather` (App.tsx lines 183-203): applied
when the network outcome settles.  On success stores the body; on a
non-2xx reply throws `body.message || 'Unable to fetch weather right
now.'` which the catch stores, clearing `data`; on a transport failure
stores the error's message or `'Unknown error'`, clearing `data`; the
`finally` clears `loading`. -/
def fetchWeatherResolve (s : AppState) (outcome : WeatherOutcome) : AppState :=
  match outcome with
  | WeatherOutcome.ok body =>
      { s with data := some body, loading := false }
  | WeatherOutcome.httpError msg =>
      { s with error := jsOrElse msg "Unable to fetch weather right now."
               data := none
               loading := false }
  | WeatherOutcome.transportError msg =>
      { s with error := msg.getD "Unknown error"
               data := none
               loading := false }

/-- The `daily` object of Provider B's response (App.tsx lines 232-242):
every field is optional and is a parallel-indexed array. -/
structure DailyBody where
  time : Option (List String) := none
  weathercode : Option (List Int) := none
  temperature_2m_max : Option (List Int) := none
  temperature_2m_min : Option (List Int) := none
  uv_index_max : Option (List Int) := none
  sunrise : Option (List String) := none
  sunset : Option (List String) := none
  deriving DecidableEq, Repr

/-- A Provider B reply: HTTP success flag and parsed body
(`daily` optional). -/
structure ForecastResponse where
  ok : Bool
  daily : Option DailyBody := none
  deriving DecidableEq, Repr

/-- JavaScript `arr?.[index]` on an optional array: `none` when the
array is absent or the index is out of range. -/
def optIndex (xs : Option (List α)) (i : Nat) : Option α :=
  match xs with
  | none => none
  | some l => l.get? i

/-- One element of the mapping in App.tsx lines 249-257: builds the
`WeeklyForecastDay` at index `i` for date `date`, defaulting missing
numeric fields to 0 via `?? 0` and leaving optional fields absent. -/
def mkForecastDay (daily : DailyBody) (i : Nat) (date : String) :
    WeeklyForecastDay :=
  { date := date
    code := (optIndex daily.weathercode i).getD 0
    tempMax := (optIndex daily.temperature_2m_max i).getD 0
    tempMin := (optIndex daily.temperature_2m_min i).getD 0
    uvMax := optIndex daily.uv_index_max i
    sunrise := optIndex daily.sunrise i
    sunset := optIndex daily.sunset i }

/-- The try-block of `fetchWeeklyForecast` (App.tsx lines 228-257) as a
result: non-2xx replies throw `'Unable to fetch the weekly forecast.'`;
an absent `daily`, absent `daily.time` or empty `daily.time` throws
`'Weekly forecast data is unavailable.'` (the `!daily?.time?.length`
guard); otherwise `daily.time.map((date, index) => ...)` builds the
week. -/
def forecastResult (resp : ForecastResponse) :
    Except String (List WeeklyForecastDay) :=
  if !resp.ok then Except.error "Unable to fetch the weekly forecast."
  else
    match resp.daily with
    | none => Except.error "Weekly forecast data is unavailable."
    | some daily =>
        match daily.time with
        | none => Except.error "Weekly forecast data is unavailable."
        | some [] => Except.error "Weekly forecast data is unavailable."
        | some times => Except.ok (times.mapIdx fun i date => mkForecastDay daily i date)

/-- Outcome of the Provider B network call: a reply (parsed), or a
transport-level failure with the thrown value's optional message. -/
inductive ForecastOutcome
  | reply (resp : ForecastResponse)
  | transportError (message : Option String)
  deriving DecidableEq, Repr

/-- The query parameters of the Provider B request built in
App.tsx lines 213-221. -/
structure ForecastParams where
  latitude : Int
  longitude : Int
  daily : String
  timezone : String
  forecast_days : String
  temperature_unit : String
  deriving DecidableEq, Repr

/-- Builds the Provider B query parameters (App.tsx lines 213-221):
7 days, auto timezone, temperature unit `fahrenheit` when imperial,
otherwise `celsius`. -/
def buildForecastParams (lat lon : Int) (units : UnitSystem) : ForecastParams :=
  { latitude := lat
    longitude := lon
    daily := "weathercode,temperature_2m_max,temperature_2m_min,uv_index_max,sunrise,sunset"
    timezone := "auto"
    forecast_days := "7"
    temperature_unit := if units = UnitSystem.imperial then "fahrenheit" else "celsius" }

/-- Synchronous start phase of `fetchWeeklyForecast`
(App.tsx lines 208-221): sets the forecast FetchState to loading,
clears the forecast error and issues the Provider B request. -/
def fetchWeeklyForecastStart (s : AppState) (lat lon : Int) :
    AppState × ForecastParams :=
  ({ s with weeklyLoading := true, weeklyError := "" },
   buildForecastParams lat lon s.units)

/-- Resolution phase of `fetchWeeklyForecast` (App.tsx lines 223-266):
on success stores the mapped week; any thrown error's message is stored
in `weeklyError` and `weekly` is cleared; the `finally` clears
`weeklyLoading`. -/
def fetchWeeklyForecastResolve (s : AppState) (outcome : ForecastOutcome) :
    AppState :=
  match outcome with
  | ForecastOutcome.reply resp =>
      match forecastResult resp with
      | Except.ok week =>
          { s with weekly := some week, weeklyLoading := false }
      | Except.error msg =>
          { s with weeklyError := msg, weekly := none, weeklyLoading := false }
  | ForecastOutcome.transportError msg =>
      { s with weeklyError := msg.getD "Unknown error"
               weekly := none
               weeklyLoading := false }

/-- Whitespace as stripped by `String.prototype.trim`: the ECMAScript
WhiteSpace production (TAB U+0009, VT U+000B, FF U+000C, SP U+0020,
NBSP U+00A0, ZWNBSP U+FEFF, and the Unicode space-separator category:
U+0020, U+00A0, U+1680, U+2000 to U+200A, U+202F, U+205F, U+3000)
together with the LineTerminator production (LF U+000A, CR U+000D,
LS U+2028, PS U+2029). -/
def isJsSpace (c : Char) : Bool :=
  c.toNat = 0x09 ∨ c.toNat = 0x0A ∨ c.toNat = 0x0B ∨ c.toNat = 0x0C ∨
  c.toNat = 0x0D ∨ c.toNat = 0x20 ∨ c.toNat = 0xA0 ∨ c.toNat = 0x1680 ∨
  (0x2000 ≤ c.toNat ∧ c.toNat ≤ 0x200A) ∨ c.toNat = 0x2028 ∨
  c.toNat = 0x2029 ∨ c.toNat = 0x202F ∨ c.toNat = 0x205F ∨
  c.toNat = 0x3000 ∨ c.toNat = 0xFEFF

/-- JavaScript `String.prototype.trim`: strips `isJsSpace` characters
from both ends, modelled on the character list. -/
def jsTrim (s : String) : String :=
  String.mk ((((s.toList.dropWhile isJsSpace).reverse).dropWhile isJsSpace).reverse)

/-- The search-submit handler `onSubmit` (App.tsx lines 271-279) minus
the `preventDefault` call: trims the query; if the trimmed text is
empty (falsy) reports the validation error and triggers no fetch;
otherwise calls `fetchWeather` with a city request whose name is the
trimmed text.  Returns the updated state and the request passed to
`fetchWeather`, `none` when no fetch was triggered. -/
def onSubmit (s : AppState) : AppState × Option WeatherRequest :=
  let trimmed := jsTrim s.query
  if trimmed = "" then
    ({ s with error := "Enter a city name to search." }, none)
  else
    (s, some { city := some trimmed })

/-- `toggleUnits` (App.tsx lines 406-408). -/
def toggleUnits : UnitSystem → UnitSystem
  | UnitSystem.metric => UnitSystem.imperial
  | UnitSystem.imperial => UnitSystem.metric

/-- One unit toggle together with the units-replay effect
(App.tsx lines 300-304): the toggle updates `units`; the effect, whose
dependencies include `units`, then runs once and, when the last-request
memory is set, re-invokes `fetchWeather` with it under the new units.
Returns the resulting state and the Provider A request issued by the
replayed fetch (`none` when no fetch was issued). -/
def toggleStep (s : AppState) : AppState × Option WeatherParams :=
  let s1 := { s with units := toggleUnits s.units }
  match s1.lastRequest with
  | none => (s1, none)
  | some r => fetchWeatherStart s1 r

/-- The weekly reset effect (App.tsx lines 306-313): when no
current-conditions result (hence no coordinates) is available the
forecast state is reset to `null`; otherwise `fetchWeeklyForecast` is
triggered with the result's coordinates.  Returns the updated state and
the coordinates passed to the forecast fetch, if any. -/
def weeklyResetEffect (s : AppState) : AppState × Option (Int × Int) :=
  match s.data with
  | none => ({ s with weekly := none }, none)
  | some d => (s, some (d.coord.lat, d.coord.lon))

/-- Events of an interleaved execution of current-conditions fetches:
a fetch is started (its synchronous phase runs), or an in-flight
fetch's network outcome settles (its resolution phase runs).  The code
tags in-flight requests with no generation token, so every resolution
writes the shared state unconditionally, whichever fetch it belongs
to. -/
inductive WeatherEvent
  | start (request : WeatherRequest)
  | resolve (outcome : WeatherOutcome)
  deriving Repr

/-- Applies one event to the state. -/
def stepWeather (s : AppState) : WeatherEvent → AppState
  | WeatherEvent.start r => (fetchWeatherStart s r).1
  | WeatherEvent.resolve o => fetchWeatherResolve s o

/-- Runs a trace of start/resolve events from a state. -/
def runWeather (s : AppState) : List WeatherEvent → AppState
  | [] => s
  | e :: es => runWeather (stepWeather s e) es

/-- The `data` value a resolution writes: the body on success, `none`
on either failure kind. -/
def outcomeData : WeatherOutcome → Option WeatherData
  | WeatherOutcome.ok body => some body
  | WeatherOutcome.httpError _ => none
  | WeatherOutcome.transportError _ => none

/-- The `!daily?.time?.length` guard of App.tsx line 245 as a
predicate: the daily time series is absent or empty (either `daily`
itself is missing, or `daily.time` is missing, or it is the empty
array). -/
def hasEmptySeries (resp : ForecastResponse) : Bool :=
  match resp.daily with
  | none => true
  | some daily =>
      match daily.time with
      | none => true
      | some times => times.isEmpty

/-- Claim C3: for every state and request, if no API credential is
configured then `fetchWeather` reports the configuration error, issues
no network request at all (the parameters are never built), and changes
nothing else: loading, the last-request memory, the stored data and the
forecast state are all untouched. -/
theorem claim_C3_missing_credential (s : AppState) (request : WeatherRequest)
    (h : s.apiKey = none) :
    (fetchWeatherStart s request).2 = none ∧
    (fetchWeatherStart s request).1.error = configErrorMessage ∧
    (fetchWeatherStart s request).1.loading = s.loading ∧
    (fetchWeatherStart s request).1.lastRequest = s.lastRequest ∧
    (fetchWeatherStart s request).1.data = s.data ∧
    (fetchWeatherStart s request).1.weekly = s.weekly ∧
    (fetchWeatherStart s request).1.units = s.units := by
  simp [fetchWeatherStart, h]

/-- Witness for C3: a concrete credential-less state. -/
theorem claim_C3_missing_credential_witness :
    (fetchWeatherStart
        { apiKey := none, query := "Seoul", units := UnitSystem.metric,
          data := none, loading := false, error := "",
          weekly := none, weeklyLoading := false, weeklyError := "",
          lastRequest := none }
        { city := some "Seoul" }).2 = none :=
  (claim_C3_missing_credential _ _ rfl).1

/-- Claim C4: for every integer weather code, the source's
`getWeeklySummary` returns exactly the category prescribed by the
spec's first-match-wins mapping table. -/
theorem claim_C4_weather_code_mapping (code : Int) :
    (getWeeklySummary code).1 = specCategoryTable code := by
  unfold getWeeklySummary specCategoryTable
  split_ifs <;> rfl

/-- Claim C6: for every state, submitting the search either reports the
validation error and triggers no fetch (when the query is empty after
trimming) or triggers exactly one current-conditions fetch whose
request is a city query named by the trimmed input, with the state
otherwise untouched. -/
theorem claim_C6_search_resolution (s : AppState) :
    (jsTrim s.query = "" →
      (onSubmit s).2 = none ∧
      (onSubmit s).1.error = "Enter a city name to search." ∧
      (onSubmit s).1.data = s.data ∧
      (onSubmit s).1.lastRequest = s.lastRequest) ∧
    (jsTrim s.query ≠ "" →
      (onSubmit s).1 = s ∧
      (onSubmit s).2 =
        some { city := some (jsTrim s.query), lat := none, lon := none }) := by
  constructor
  · intro h
    simp [onSubmit, h]
  · intro h
    simp [onSubmit, h]

/-- Witness for C6: a query padded with a no-break space and an
ordinary space trims to the city name and is fetched. -/
theorem claim_C6_search_resolution_witness :
    (onSubmit
        { apiKey := some "k", query := "\u00A0Seoul ", units := UnitSystem.metric,
          data := none, loading := false, error := "",
          weekly := none, weeklyLoading := false, weeklyError := "",
          lastRequest := none }).2 =
      some { city := some "Seoul", lat := none, lon := none } := by
  have h := (claim_C6_search_resolution
    { apiKey := some "k", query := "\u00A0Seoul ", units := UnitSystem.metric,
      data := none, loading := false, error := "",
      weekly := none, weeklyLoading := false, weeklyError := "",
      lastRequest := none }).2 (by decide)
  exact h.2.trans (by decide)

/-- Claim C10: the initial unit system is imperial exactly when the
environment's locale is one of en-US, en-LR, en-MM; every other locale,
and an environment with no locale facility at all, yields metric. -/
theorem claim_C10_default_units (navigatorLanguage : Option String) :
    (initUnits navigatorLanguage = UnitSystem.imperial ↔
      navigatorLanguage = some "en-US" ∨
      navigatorLanguage = some "en-LR" ∨
      navigatorLanguage = some "en-MM") ∧
    initUnits none = UnitSystem.metric := by
  refine ⟨?_, rfl⟩
  cases navigatorLanguage with
  | none => simp [initUnits]
  | some language =>
      by_cases h1 : language = "en-US"
      · subst h1; simp [initUnits, getDefaultUnits, imperialLocales]
      by_cases h2 : language = "en-LR"
      · subst h2; simp [initUnits, getDefaultUnits, imperialLocales]
      by_cases h3 : language = "en-MM"
      · subst h3; simp [initUnits, getDefaultUnits, imperialLocales]
      · have hm : language ∉ imperialLocales := by
          simp [imperialLocales, h1, h2, h3]
        simp [initUnits, getDefaultUnits, hm, h1, h2, h3]

/-- Claim C5: for every state and every Provider B reply that is
non-success, or whose daily time series is absent or empty, the
forecast fetch ends in error — the empty-series case with exactly
the message `Weekly forecast data is unavailable.` — with no stored
forecast value and loading cleared; and the forecast pipeline never
produces a success carrying an empty sequence. -/
theorem claim_C5_forecast_unavailable (s : AppState) (resp : ForecastResponse) :
    (resp.ok = true → hasEmptySeries resp = true →
      (fetchWeeklyForecastResolve s (ForecastOutcome.reply resp)).weeklyError =
          "Weekly forecast data is unavailable." ∧
      (fetchWeeklyForecastResolve s (ForecastOutcome.reply resp)).weekly = none ∧
      (fetchWeeklyForecastResolve s (ForecastOutcome.reply resp)).weeklyLoading = false) ∧
    (resp.ok = false →
      (fetchWeeklyForecastResolve s (ForecastOutcome.reply resp)).weeklyError =
          "Unable to fetch the weekly forecast." ∧
      (fetchWeeklyForecastResolve s (ForecastOutcome.reply resp)).weekly = none ∧
      (fetchWeeklyForecastResolve s (ForecastOutcome.reply resp)).weeklyLoading = false) ∧
    (∀ week, forecastResult resp = Except.ok week → week ≠ []) := by
  refine ⟨?_, ?_, ?_⟩
  · intro hok hempty
    cases hd : resp.daily with
    | none => simp [fetchWeeklyForecastResolve, forecastResult, hok, hd]
    | some daily =>
        cases ht : daily.time with
        | none => simp [fetchWeeklyForecastResolve, forecastResult, hok, hd, ht]
        | some times =>
            cases times with
            | nil => simp [fetchWeeklyForecastResolve, forecastResult, hok, hd, ht]
            | cons a as =>
                exfalso
                simp [hasEmptySeries, hd, ht] at hempty
  · intro hok
    simp [fetchWeeklyForecastResolve, forecastResult, hok]
  · intro week hw
    unfold forecastResult at hw
    cases hok : resp.ok with
    | false => simp [hok] at hw
    | true =>
        cases hd : resp.daily with
        | none => simp [hok, hd] at hw
        | some daily =>
            cases ht : daily.time with
            | none => simp [hok, hd, ht] at hw
            | some times =>
                cases times with
                | nil => simp [hok, hd, ht] at hw
                | cons a as =>
                    simp only [hok, hd, ht, Bool.not_true, Bool.false_eq_true,
                      if_false, Except.ok.injEq] at hw
                    have hlen : week.length = (a :: as).length := by
                      rw [← hw]; exact List.length_mapIdx
                    intro hnil
                    rw [hnil] at hlen
                    simp at hlen

/-- Witness for C5: a success reply with an empty time series yields
the unavailability error. -/
theorem claim_C5_forecast_unavailable_witness :
    (fetchWeeklyForecastResolve
        { apiKey := some "k", query := "", units := UnitSystem.metric,
          data := none, loading := false, error := "",
          weekly := none, weeklyLoading := true, weeklyError := "",
          lastRequest := none }
        (ForecastOutcome.reply { ok := true, daily := some { time := some [] } })).weeklyError =
      "Weekly forecast data is unavailable." :=
  ((claim_C5_forecast_unavailable
      { apiKey := some "k", query := "", units := UnitSystem.metric,
        data := none, loading := false, error := "",
        weekly := none, weeklyLoading := true, weeklyError := "",
        lastRequest := none }
      { ok := true, daily := some { time := some [] } }).1 rfl rfl).1

/-- Claim C7: for every successful Provider B reply and every index of
its daily time sequence, the produced entry takes its date from the
time array at that index; a missing numeric field there (weather code,
max or min temperature — whether the whole array is absent or the
index is out of its range) defaults to 0, while missing optional
fields (UV max, sunrise, sunset) remain absent. -/
theorem claim_C7_daily_mapping (resp : ForecastResponse) (daily : DailyBody)
    (times : List String) (i : Nat)
    (hok : resp.ok = true) (hd : resp.daily = some daily)
    (ht : daily.time = some times) (hi : i < times.length) :
    ∃ week, forecastResult resp = Except.ok week ∧
      week.length = times.length ∧
      week.get? i = some (mkForecastDay daily i (times.get ⟨i, hi⟩)) ∧
      (mkForecastDay daily i (times.get ⟨i, hi⟩)).date = times.get ⟨i, hi⟩ ∧
      (optIndex daily.weathercode i = none →
        (mkForecastDay daily i (times.get ⟨i, hi⟩)).code = 0) ∧
      (optIndex daily.temperature_2m_max i = none →
        (mkForecastDay daily i (times.get ⟨i, hi⟩)).tempMax = 0) ∧
      (optIndex daily.temperature_2m_min i = none →
        (mkForecastDay daily i (times.get ⟨i, hi⟩)).tempMin = 0) ∧
      (optIndex daily.uv_index_max i = none →
        (mkForecastDay daily i (times.get ⟨i, hi⟩)).uvMax = none) ∧
      (optIndex daily.sunrise i = none →
        (mkForecastDay daily i (times.get ⟨i, hi⟩)).sunrise = none) ∧
      (optIndex daily.sunset i = none →
        (mkForecastDay daily i (times.get ⟨i, hi⟩)).sunset = none) := by
  cases times with
  | nil => exact absurd hi (by simp)
  | cons a as =>
      refine ⟨(a :: as).mapIdx (fun j date => mkForecastDay daily j date), ?_, ?_, ?_, rfl,
        ?_, ?_, ?_, ?_, ?_, ?_⟩
      · simp [forecastResult, hok, hd, ht]
      · exact List.length_mapIdx
      · have := List.getElem?_mapIdx
          (l := a :: as) (f := fun j date => mkForecastDay daily j date) (i := i)
        rw [List.get?_eq_getElem?, this, List.getElem?_eq_getElem hi]
        simp [List.get_eq_getElem]
      · intro h; simp [mkForecastDay, h]
      · intro h; simp [mkForecastDay, h]
      · intro h; simp [mkForecastDay, h]
      · intro h; simp [mkForecastDay, h]
      · intro h; simp [mkForecastDay, h]
      · intro h; simp [mkForecastDay, h]

/-- Witness for C7: a one-day reply with only the time array present
maps to an entry with that date, zero numeric fields and absent
optional fields. -/
theorem claim_C7_daily_mapping_witness :
    ∃ week,
      forecastResult { ok := true, daily := some { time := some ["2026-10-11"] } } =
        Except.ok week ∧
      week.length = 1 ∧
      week.get? 0 = some (mkForecastDay { time := some ["2026-10-11"] } 0 "2026-10-11") := by
  obtain ⟨week, h1, h2, h3, -⟩ :=
    claim_C7_daily_mapping
      { ok := true, daily := some { time := some ["2026-10-11"] } }
      { time := some ["2026-10-11"] } ["2026-10-11"] 0 rfl rfl rfl (by decide)
  exact ⟨week, h1, h2, h3⟩

/-- Claim C8: toggling the unit system twice returns it to its
original value; and given a stored last request and a configured
credential, each of the two toggles replays exactly one
current-conditions fetch whose parameters carry the unit system
current at that toggle, and the forecast cascade of the first toggle
requests fahrenheit exactly when that toggle switched to imperial
(i.e. when the original system was metric), otherwise celsius. -/
theorem claim_C8_toggle_involution_replay (s : AppState) (key : String)
    (r : WeatherRequest) (hk : s.apiKey = some key)
    (hr : s.lastRequest = some r) :
    toggleUnits (toggleUnits s.units) = s.units ∧
    (toggleStep s).1.units = toggleUnits s.units ∧
    (toggleStep s).2 = some (buildWeatherParams key (toggleUnits s.units) r) ∧
    (toggleStep (toggleStep s).1).1.units = s.units ∧
    (toggleStep (toggleStep s).1).2 = some (buildWeatherParams key s.units r) ∧
    (∀ lat lon,
      (fetchWeeklyForecastStart (toggleStep s).1 lat lon).2.temperature_unit =
        if s.units = UnitSystem.metric then "fahrenheit" else "celsius") := by
  cases hu : s.units <;>
    simp [toggleStep, toggleUnits, fetchWeatherStart, fetchWeeklyForecastStart,
      buildForecastParams, hk, hr, hu]

/-- Witness for C8: a concrete metric state with a stored request:
both toggles replay the fetch and the cascade switches to
fahrenheit. -/
theorem claim_C8_toggle_involution_replay_witness :
    toggleUnits (toggleUnits UnitSystem.metric) = UnitSystem.metric ∧
    (toggleStep
        { apiKey := some "k", query := "", units := UnitSystem.metric,
          data := none, loading := false, error := "",
          weekly := none, weeklyLoading := false, weeklyError := "",
          lastRequest := some { city := some "Seoul" } }).2 =
      some (buildWeatherParams "k" (toggleUnits UnitSystem.metric)
        { city := some "Seoul" }) := by
  have h := claim_C8_toggle_involution_replay
    { apiKey := some "k", query := "", units := UnitSystem.metric,
      data := none, loading := false, error := "",
      weekly := none, weeklyLoading := false, weeklyError := "",
      lastRequest := some { city := some "Seoul" } } "k"
    { city := some "Seoul" } rfl rfl
  exact ⟨h.1, h.2.2.1⟩

/-- Claim C9: with a configured credential, the start phase of
`fetchWeather` overwrites the last-request memory with the issued
request before the network outcome settles; the resolution phase never
touches the memory, for any outcome — so after a failed fetch the
memory still records the attempted request; with no credential the
memory is left unchanged. -/
theorem claim_C9_last_request_memory (s : AppState) (request : WeatherRequest) :
    (∀ key, s.apiKey = some key →
      (fetchWeatherStart s request).1.lastRequest = some request ∧
      (fetchWeatherStart s request).2 = some (buildWeatherParams key s.units request)) ∧
    (∀ outcome, (fetchWeatherResolve s outcome).lastRequest = s.lastRequest) ∧
    (s.apiKey = none →
      (fetchWeatherStart s request).1.lastRequest = s.lastRequest) := by
  refine ⟨?_, ?_, ?_⟩
  · intro key hk
    simp [fetchWeatherStart, hk]
  · intro outcome
    cases outcome <;> simp [fetchWeatherResolve]
  · intro hk
    simp [fetchWeatherStart, hk]

/-- Witness for C9: a concrete fetch whose outcome is an error still
leaves the attempted request in the memory. -/
theorem claim_C9_last_request_memory_witness :
    (fetchWeatherResolve
        (fetchWeatherStart
          { apiKey := some "k", query := "", units := UnitSystem.metric,
            data := none, loading := false, error := "",
            weekly := none, weeklyLoading := false, weeklyError := "",
            lastRequest := none }
          { city := some "Nowhere" }).1
        (WeatherOutcome.httpError (some "city not found"))).lastRequest =
      some { city := some "Nowhere", lat := none, lon := none } := by
  have h1 := ((claim_C9_last_request_memory
    { apiKey := some "k", query := "", units := UnitSystem.metric,
      data := none, loading := false, error := "",
      weekly := none, weeklyLoading := false, weeklyError := "",
      lastRequest := none }
    { city := some "Nowhere" }).1 "k" rfl).1
  have h2 := (claim_C9_last_request_memory
    (fetchWeatherStart
      { apiKey := some "k", query := "", units := UnitSystem.metric,
        data := none, loading := false, error := "",
        weekly := none, weeklyLoading := false, weeklyError := "",
        lastRequest := none }
      { city := some "Nowhere" }).1
    { city := some "Nowhere" }).2.1 (WeatherOutcome.httpError (some "city not found"))
  rw [h2, h1]

/-- Claim C1 counterexample: `fetchWeather` carries no generation
token, so a superseded in-flight response is written to state when it
settles.  Concretely: fetch A (city Paris) is initiated, then fetch B
(city Lyon) is initiated before A resolves; B resolves first with
Lyon's conditions, then A resolves with Paris's.  The claim requires
the final state to hold B's outcome; the code leaves A's. -/
theorem claim_C1_last_write_wins_counterexample :
    (runWeather
        { apiKey := some "k", query := "", units := UnitSystem.metric,
          data := none, loading := false, error := "",
          weekly := none, weeklyLoading := false, weeklyError := "",
          lastRequest := none }
        [WeatherEvent.start { city := some "Paris" },
         WeatherEvent.start { city := some "Lyon" },
         WeatherEvent.resolve (WeatherOutcome.ok
           { name := "Lyon", dt := 200, timezone := 3600, visibility := 9000,
             coord := { lat := 45, lon := 4 }, sys := { country := "FR" },
             weather := [{ main := "Clouds", description := "overcast" }],
             main := { temp := 15, feels_like := 14, humidity := 60 },
             wind := { speed := 4 } }),
         WeatherEvent.resolve (WeatherOutcome.ok
           { name := "Paris", dt := 100, timezone := 3600, visibility := 10000,
             coord := { lat := 48, lon := 2 }, sys := { country := "FR" },
             weather := [{ main := "Clear", description := "clear sky" }],
             main := { temp := 20, feels_like := 19, humidity := 50 },
             wind := { speed := 3 } })]).data =
      some
        { name := "Paris", dt := 100, timezone := 3600, visibility := 10000,
          coord := { lat := 48, lon := 2 }, sys := { country := "FR" },
          weather := [{ main := "Clear", description := "clear sky" }],
          main := { temp := 20, feels_like := 19, humidity := 50 },
          wind := { speed := 3 } } ∧
    ({ name := "Paris", dt := 100, timezone := 3600, visibility := 10000,
       coord := { lat := 48, lon := 2 }, sys := { country := "FR" },
       weather := [{ main := "Clear", description := "clear sky" }],
       main := { temp := 20, feels_like := 19, humidity := 50 },
       wind := { speed := 3 } } : WeatherData) ≠
      { name := "Lyon", dt := 200, timezone := 3600, visibility := 9000,
        coord := { lat := 45, lon := 4 }, sys := { country := "FR" },
        weather := [{ main := "Clouds", description := "overcast" }],
        main := { temp := 15, feels_like := 14, humidity := 60 },
        wind := { speed := 4 } } := by
  exact ⟨rfl, by decide⟩

/-- Claim C1 amended: when fetch A is initiated, then fetch B is
initiated before A resolves, and both then resolve, the final
current-conditions state equals the outcome of the request that
resolves last — not the most recently initiated one — loading is
cleared and the last-request memory holds B; the code has no
supersession guard, so a superseded request's response is reflected
whenever it settles last. -/
theorem claim_C1_last_settled_wins (s : AppState) (key : String)
    (a b : WeatherRequest) (o1 o2 : WeatherOutcome) (hk : s.apiKey = some key) :
    (runWeather s [WeatherEvent.start a, WeatherEvent.start b,
        WeatherEvent.resolve o1, WeatherEvent.resolve o2]).data = outcomeData o2 ∧
    (runWeather s [WeatherEvent.start a, WeatherEvent.start b,
        WeatherEvent.resolve o1, WeatherEvent.resolve o2]).loading = false ∧
    (runWeather s [WeatherEvent.start a, WeatherEvent.start b,
        WeatherEvent.resolve o1, WeatherEvent.resolve o2]).lastRequest = some b := by
  cases o1 <;> cases o2 <;>
    simp [runWeather, stepWeather, fetchWeatherStart, fetchWeatherResolve,
      outcomeData, hk]

/-- Witness for the amended C1: the counterexample trace, via the
general theorem. -/
theorem claim_C1_last_settled_wins_witness :
    (runWeather
        { apiKey := some "k", query := "", units := UnitSystem.metric,
          data := none, loading := false, error := "",
          weekly := none, weeklyLoading := false, weeklyError := "",
          lastRequest := none }
        [WeatherEvent.start { city := some "Paris" },
         WeatherEvent.start { city := some "Lyon" },
         WeatherEvent.resolve (WeatherOutcome.httpError (some "city not found")),
         WeatherEvent.resolve (WeatherOutcome.ok
           { name := "Paris", dt := 100, timezone := 3600, visibility := 10000,
             coord := { lat := 48, lon := 2 }, sys := { country := "FR" },
             weather := [{ main := "Clear", description := "clear sky" }],
             main := { temp := 20, feels_like := 19, humidity := 50 },
             wind := { speed := 3 } })]).data =
      outcomeData (WeatherOutcome.ok
        { name := "Paris", dt := 100, timezone := 3600, visibility := 10000,
          coord := { lat := 48, lon := 2 }, sys := { country := "FR" },
          weather := [{ main := "Clear", description := "clear sky" }],
          main := { temp := 20, feels_like := 19, humidity := 50 },
          wind := { speed := 3 } }) :=
  (claim_C1_last_settled_wins
    { apiKey := some "k", query := "", units := UnitSystem.metric,
      data := none, loading := false, error := "",
      weekly := none, weeklyLoading := false, weeklyError := "",
      lastRequest := none }
    "k" { city := some "Paris" } { city := some "Lyon" }
    (WeatherOutcome.httpError (some "city not found"))
    (WeatherOutcome.ok
      { name := "Paris", dt := 100, timezone := 3600, visibility := 10000,
        coord := { lat := 48, lon := 2 }, sys := { country := "FR" },
        weather := [{ main := "Clear", description := "clear sky" }],
        main := { temp := 20, feels_like := 19, humidity := 50 },
        wind := { speed := 3 } })
    rfl).1

/-- Claim C2 counterexample: a current-conditions fetch that ends in
error clears the stored weather data, and the weekly reset effect that
follows (no coordinates available any more) clears the stored
successful forecast too — so the stored forecast does not survive a
current-conditions error, contrary to the claim's second half. -/
theorem claim_C2_independence_counterexample :
    (weeklyResetEffect
        (fetchWeatherResolve
          { apiKey := some "k", query := "", units := UnitSystem.metric,
            data := some
              { name := "Paris", dt := 100, timezone := 3600, visibility := 10000,
                coord := { lat := 48, lon := 2 }, sys := { country := "FR" },
                weather := [{ main := "Clear", description := "clear sky" }],
                main := { temp := 20, feels_like := 19, humidity := 50 },
                wind := { speed := 3 } },
            loading := true, error := "",
            weekly := some [{ date := "2026-10-11", code := 0,
                              tempMax := 21, tempMin := 12 }],
            weeklyLoading := false, weeklyError := "",
            lastRequest := some { city := some "Paris" } }
          (WeatherOutcome.httpError (some "city not found")))).1.weekly = none ∧
    (some [({ date := "2026-10-11", code := 0, tempMax := 21,
              tempMin := 12 } : WeeklyForecastDay)] ≠
      (none : Option (List WeeklyForecastDay))) := by
  exact ⟨rfl, by decide⟩

/-- Claim C2 amended: the independence holds in one direction only —
a forecast fetch (start or resolution, any outcome) never changes the
stored current-conditions result, its error or its loading flag; in
the other direction a current-conditions fetch that ends in error
clears the stored weather data, after which the weekly reset effect
clears the stored forecast as well. -/
theorem claim_C2_one_sided_independence (s : AppState)
    (outcome : ForecastOutcome) (lat lon : Int) (msg : Option String) :
    (fetchWeeklyForecastResolve s outcome).data = s.data ∧
    (fetchWeeklyForecastResolve s outcome).error = s.error ∧
    (fetchWeeklyForecastResolve s outcome).loading = s.loading ∧
    (fetchWeeklyForecastResolve s outcome).lastRequest = s.lastRequest ∧
    (fetchWeeklyForecastStart s lat lon).1.data = s.data ∧
    (fetchWeeklyForecastStart s lat lon).1.error = s.error ∧
    (fetchWeatherResolve s (WeatherOutcome.httpError msg)).data = none ∧
    (weeklyResetEffect
        (fetchWeatherResolve s (WeatherOutcome.httpError msg))).1.weekly = none := by
  refine ⟨?_, ?_, ?_, ?_, rfl, rfl, rfl, ?_⟩ <;>
    first
    | (cases outcome with
       | reply resp =>
           cases hfr : forecastResult resp <;>
             simp [fetchWeeklyForecastResolve, hfr]
       | transportError m => simp [fetchWeeklyForecastResolve])
    | simp [fetchWeatherResolve, weeklyResetEffect]

end WeatherApp
